import Mathlib

/-!
Verification of the Nova Social API backend (`main.py`, `schemas.py`).

Documents stored in the database are modelled as association lists from
string keys to a small universe of values (`Doc`).  The handlers of
`main.py` are translated function by function; the document-access layer
(`database.py`, imported by `main.py` but not part of the provided
sources) is modelled from the specification where a claim depends on it.
-/

/-- Universe of document field values (string, integer, boolean, string
list), enough for the five entity kinds of `schemas.py`. -/
inductive Value where
  | str (s : String)
  | int (n : Int)
  | bool (b : Bool)
  | strList (l : List String)
deriving DecidableEq, Repr

/-- A stored document: an association list from field names to values,
modelling a Python dict as far as key lookup, removal and update go. -/
abbrev Doc : Type := List (String × Value)

/-- Lookup of a key in a document (Python `d[k]` / `"k" in d`). -/
def dget : Doc → String → Option Value
  | [], _ => none
  | (k, v) :: rest, key => if k = key then some v else dget rest key

/-- Removal of a key from a document (Python `d.pop(k)` after the value
has been read; dict keys are unique, so removing every pair with the key
is the same operation). -/
def dictRemove : Doc → String → Doc
  | [], _ => []
  | (a, v) :: t, k => if a = k then dictRemove t k else (a, v) :: dictRemove t k

/-- Setting a key in a document (Python `d[k] = v`). -/
def dictSet (d : Doc) (k : String) (v : Value) : Doc :=
  dictRemove d k ++ [(k, v)]

/-- Python `str()` applied to a field value.  In the handlers it is only
ever applied to the generated identifier, which is modelled as a
`Value.str`. -/
def pyStr : Value → String
  | .str s => s
  | .int n => toString n
  | .bool b => if b then "True" else "False"
  | .strList l => toString l

/-- The identifier-shaping step every list handler of `main.py` performs
on each document: `if "_id" in it: it["id"] = str(it.pop("_id"))`
(`main.py` lines 73-75, 95-97, 117-119, 140-142). -/
def shapeDoc (it : Doc) : Doc :=
  match dget it "_id" with
  | some v => dictSet (dictRemove it "_id") "id" (Value.str (pyStr v))
  | none => it

/-- Filters built by the read handlers: no filter, field equality
(`{"channel_id": c}`), or tag membership (`{"tags": {"$in": [t]}}`). -/
inductive FilterSpec where
  | empty
  | fieldEq (field : String) (val : String)
  | memb (field : String) (val : String)

/-- Whether a stored document matches a filter: direct equality on a
string field, or membership in an array-valued field (the two filter
forms of spec §6). -/
def matchesFilter : FilterSpec → Doc → Bool
  | .empty, _ => true
  | .fieldEq f v, d =>
      match dget d f with
      | some (Value.str s) => decide (s = v)
      | _ => false
  | .memb f v, d =>
      match dget d f with
      | some (Value.strList l) => l.contains v
      | _ => false

/-- Modelled from the spec: `database.get_documents`, the document-access
layer's read operation (`database.py` is imported by `main.py` but is not
among the provided sources).  Per spec §4.1/§6 it returns the stored
documents of the collection that match the equality/membership filter,
up to `limit` of them, and propagates an underlying store error. -/
def get_documents (store : Except String (List Doc)) (filt : FilterSpec)
    (limit : Nat) : Except String (List Doc) :=
  match store with
  | .error e => .error e
  | .ok docs => .ok ((docs.filter (matchesFilter filt)).take limit)

/-- Handler `GET /api/users` (`main.py` lines 68-78): fetch the documents
and rename the internal identifier; an exception from the store becomes a
500 whose detail is `str(e)`. -/
def list_users (store : Except String (List Doc)) :
    Except (Nat × String) (List Doc) :=
  match store with
  | .ok items => .ok (items.map shapeDoc)
  | .error e => .error (500, e)

/-- Handler `GET /api/channels` (`main.py` lines 91-100), identical in
shape to `list_users`. -/
def list_channels (store : Except String (List Doc)) :
    Except (Nat × String) (List Doc) :=
  match store with
  | .ok items => .ok (items.map shapeDoc)
  | .error e => .error (500, e)

/-- Handler `GET /api/messages` (`main.py` lines 112-122):
`filter_dict = {"channel_id": channel_id} if channel_id else {}` — by
Python truthiness both `None` and the empty string produce the empty
filter — then `get_documents("message", filter_dict, limit=100)` and the
identifier-shaping loop. -/
def list_messages (store : Except String (List Doc))
    (channel_id : Option String) : Except (Nat × String) (List Doc) :=
  let filter_dict : FilterSpec :=
    match channel_id with
    | some c => if c = "" then .empty else .fieldEq "channel_id" c
    | none => .empty
  match get_documents store filter_dict 100 with
  | .ok items => .ok (items.map shapeDoc)
  | .error e => .error (500, e)

/-- Handler `GET /api/videos` (`main.py` lines 135-145):
`filter_dict = {"tags": {"$in": [tag]}} if tag else {}` (again Python
truthiness), then `get_documents("video", filter_dict, limit=50)` and the
identifier-shaping loop. -/
def list_videos (store : Except String (List Doc))
    (tag : Option String) : Except (Nat × String) (List Doc) :=
  let filter_dict : FilterSpec :=
    match tag with
    | some t => if t = "" then .empty else .memb "tags" t
    | none => .empty
  match get_documents store filter_dict 50 with
  | .ok items => .ok (items.map shapeDoc)
  | .error e => .error (500, e)

/-- Handler `POST /api/users` (`main.py` lines 59-65): on success return
`{"id": inserted_id}`; on an exception raise `HTTPException(500, str(e))`
— the detail is the full `str(e)`, with no truncation.  The outcome of
`database.create_document` (not among the provided sources) is the
argument. -/
def create_user (res : Except String String) :
    Except (Nat × String) Doc :=
  match res with
  | .ok inserted_id => .ok [("id", Value.str inserted_id)]
  | .error e => .error (500, e)

/-- The diagnostic string built by the `/test` endpoint's outer exception
handler (`main.py` line 53): `f"❌ Error: {str(e)[:50]}"` — this is the
only place in `main.py` where an error message is cut to a 50-character
prefix. -/
def test_database_error_detail (e : String) : String :=
  "❌ Error: " ++ e.take 50

/-- Whitespace characters removed by Python `str.strip()` (the ASCII
whitespace set; the inputs of this API are ordinary text). -/
def pySpace (c : Char) : Bool :=
  c == ' ' || c == '\t' || c == '\n' || c == '\r' || c == '\x0b' || c == '\x0c'

/-- Python `str.strip()`: drop leading and trailing whitespace. -/
def pyStrip (s : String) : String :=
  String.mk (((s.toList.dropWhile pySpace).reverse.dropWhile pySpace).reverse)

/-- Python `str.lower()` (ASCII case folding, as exercised by the ASCII
keyword sets of the chatbot). -/
def pyLower (s : String) : String :=
  String.mk (s.toList.map Char.toLower)

/-- Whether `pat` occurs at the start of `text`. -/
def subAt : List Char → List Char → Bool
  | [], _ => true
  | _ :: _, [] => false
  | p :: ps, c :: cs => (p == c) && subAt ps cs

/-- Whether `pat` occurs contiguously anywhere in `text`. -/
def hasSub (pat : List Char) : List Char → Bool
  | [] => pat.isEmpty
  | c :: cs => subAt pat (c :: cs) || hasSub pat cs

/-- Python substring test `pat in s`. -/
def pyIn (pat s : String) : Bool :=
  hasSub pat.toList s.toList

/-- First keyword set of the chatbot (`main.py` line 164):
`["video", "clip", "reel"]`. -/
def keywordsA : List String := ["video", "clip", "reel"]

/-- Second keyword set of the chatbot (`main.py` line 166):
`["channel", "chat", "room"]`. -/
def keywordsB : List String := ["channel", "chat", "room"]

/-- The caption-offer template of `main.py` line 165. -/
def videoReply (user : String) : String :=
  "Hey " ++ user ++ "! That sounds like a great video idea. Want me to draft a catchy caption?"

/-- The channel-help template of `main.py` line 167. -/
def channelReply (user : String) : String :=
  "Sure " ++ user ++ ", I can help you set up a new channel or find trending topics."

/-- The generic echo template of `main.py` line 169. -/
def genericReply (user text : String) : String :=
  "Hi " ++ user ++ ", I hear you: \x27" ++ text ++ "\x27. How can I help further?"

/-- The keyword-flavoured reply of `main.py` lines 163-169, on the
already-trimmed text: set A is tested first, then set B, else the echo. -/
def replyText (user text : String) : String :=
  if keywordsA.any (fun k => pyIn k (pyLower text)) then videoReply user
  else if keywordsB.any (fun k => pyIn k (pyLower text)) then channelReply user
  else genericReply user text

/-- Handler `POST /api/bot` (`main.py` lines 153-170): trim the message;
reject with `HTTPException(400, "Empty message")` when the trimmed text
is empty; otherwise produce the keyword-flavoured reply. -/
def chatbot (user message : String) : Except (Nat × String) String :=
  if pyStrip message = "" then .error (400, "Empty message")
  else .ok (replyText user (pyStrip message))

/-- Inclusive length-bound check, the semantics of pydantic's
`min_length`/`max_length` constraints on a string field. -/
def lenBetween (lo hi : Nat) (s : String) : Bool :=
  lo ≤ s.length && s.length ≤ hi

/-- Validation of `User.username` (`schemas.py` line 16):
`Field(..., min_length=3, max_length=32)`. -/
def User.usernameValid (s : String) : Bool :=
  lenBetween 3 32 s

/-- Validation of `Channel.name` (`schemas.py` line 28):
`Field(..., min_length=2, max_length=64)`. -/
def Channel.nameValid (s : String) : Bool :=
  lenBetween 2 64 s

/-- Validation of `Message.author` and `Video.author` (`schemas.py`
lines 39 and 48): `Field(..., min_length=3, max_length=32)`. -/
def authorValid (s : String) : Bool :=
  lenBetween 3 32 s

/-- Default application for `Video.likes` (`schemas.py` line 52):
`Field(0, ge=0)` — an absent field takes the declared default `0`. -/
def Video.likesField (given : Option Int) : Int :=
  given.getD 0

/-- Numeric validation of `Video.likes` (`schemas.py` line 52): the
constraint `ge=0`, the only numeric bound declared on `Video`. -/
def Video.likesOk (n : Int) : Bool :=
  decide (0 ≤ n)

/-- Schema validation of `BotMessage` (`schemas.py` lines 61-62):
`user` requires length 3-32, `message` requires length 1-4000. -/
def BotMessage.valid (user message : String) : Bool :=
  lenBetween 3 32 user && lenBetween 1 4000 message

/-- A stored document carrying a generated identifier: its `_id` field is
a non-empty string (spec §3: every persisted entity carries exactly one
generated identifier; glossary: a generated identifier is an opaque
unique string). -/
def hasFreshOid (d : Doc) : Bool :=
  match dget d "_id" with
  | some (Value.str s) => decide (s ≠ "")
  | _ => false

/-- A listed document in its public shape: no `_id` key, and an `id` key
holding a non-empty string. -/
def idShaped (d : Doc) : Bool :=
  decide (dget d "_id" = none) &&
  (match dget d "id" with
   | some (Value.str s) => decide (s ≠ "")
   | _ => false)

/-- The documents of a successful handler response (empty on error). -/
def resultDocs : Except (Nat × String) (List Doc) → List Doc
  | .ok l => l
  | .error _ => []

/-- An explicit 80-character internal store-error message, used to
exhibit the handlers' untruncated error propagation. -/
def longErrMsg : String :=
  "pymongo.errors.ServerSelectionTimeoutError: connection refused on host db:27017 x"

theorem dget_append (l1 l2 : Doc) (k : String) :
    dget (l1 ++ l2) k =
      match dget l1 k with
      | some v => some v
      | none => dget l2 k := by
  induction l1 with
  | nil => simp [dget]
  | cons kv t ih =>
    obtain ⟨a, v⟩ := kv
    by_cases h : a = k
    · simp [dget, h]
    · simp [dget, h, ih]

theorem dget_dictRemove_self (d : Doc) (k : String) :
    dget (dictRemove d k) k = none := by
  induction d with
  | nil => rfl
  | cons kv t ih =>
    obtain ⟨a, v⟩ := kv
    by_cases h : a = k
    · simp [dictRemove, h, ih]
    · simp [dictRemove, dget, h, ih]

theorem dget_dictRemove_ne (d : Doc) (k k' : String) (h : k' ≠ k) :
    dget (dictRemove d k) k' = dget d k' := by
  induction d with
  | nil => rfl
  | cons kv t ih =>
    obtain ⟨a, v⟩ := kv
    by_cases ha : a = k
    · subst ha
      have hak : ¬ a = k' := fun hh => h hh.symm
      simp [dictRemove, dget, hak, ih]
    · by_cases ha' : a = k'
      · subst ha'
        simp [dictRemove, dget, ha]
      · simp [dictRemove, ha, dget, ha', ih]

theorem dget_dictSet_self (d : Doc) (k : String) (v : Value) :
    dget (dictSet d k v) k = some v := by
  unfold dictSet
  rw [dget_append, dget_dictRemove_self]
  simp [dget]

theorem dget_dictSet_ne (d : Doc) (k k' : String) (v : Value) (h : k' ≠ k) :
    dget (dictSet d k v) k' = dget d k' := by
  unfold dictSet
  rw [dget_append, dget_dictRemove_ne d k k' h]
  have hkk : ¬ k = k' := fun hh => h hh.symm
  cases hd : dget d k' with
  | some w => rfl
  | none => simp [dget, hkk]

theorem dget_shapeDoc_ne (d : Doc) (k : String)
    (h1 : k ≠ "_id") (h2 : k ≠ "id") :
    dget (shapeDoc d) k = dget d k := by
  unfold shapeDoc
  cases hv : dget d "_id" with
  | none => rfl
  | some v =>
    rw [dget_dictSet_ne _ _ _ _ h2, dget_dictRemove_ne _ _ _ h1]

theorem shapeDoc_of_oid (d : Doc) (s : String)
    (hv : dget d "_id" = some (Value.str s)) :
    dget (shapeDoc d) "_id" = none ∧
    dget (shapeDoc d) "id" = some (Value.str s) := by
  unfold shapeDoc
  rw [hv]
  constructor
  · rw [dget_dictSet_ne _ _ _ _ (by decide : "_id" ≠ "id")]
    exact dget_dictRemove_self d "_id"
  · exact dget_dictSet_self _ "id" _

theorem idShaped_shapeDoc (d : Doc) (h : hasFreshOid d = true) :
    idShaped (shapeDoc d) = true := by
  unfold hasFreshOid at h
  cases hv : dget d "_id" with
  | none => rw [hv] at h; simp at h
  | some v =>
    rw [hv] at h
    cases v with
    | str s =>
      have hs : s ≠ "" := of_decide_eq_true h
      obtain ⟨h1, h2⟩ := shapeDoc_of_oid d s hv
      unfold idShaped
      rw [h1, h2]
      simp [hs]
    | int n => simp at h
    | bool b => simp at h
    | strList l => simp at h

theorem all_idShaped_of_sub (l sub : List Doc)
    (hall : l.all hasFreshOid = true) (hsub : ∀ d ∈ sub, d ∈ l) :
    (sub.map shapeDoc).all idShaped = true := by
  rw [List.all_eq_true] at hall ⊢
  intro x hx
  rw [List.mem_map] at hx
  obtain ⟨d, hd, rfl⟩ := hx
  exact idShaped_shapeDoc d (hall d (hsub d hd))

/-- C1: every document returned by a list handler (`GET /api/users`,
`/api/channels`, `/api/messages`, `/api/videos`) carries no `_id` key and
carries a public `id` key holding a non-empty string, provided every
stored document carries a non-empty generated `_id` (spec §3). -/
theorem C1_list_output_id_shaping (items : List Doc)
    (cid tag : Option String) (out : List Doc)
    (hitems : items.all hasFreshOid = true)
    (hout : list_users (Except.ok items) = Except.ok out ∨
            list_channels (Except.ok items) = Except.ok out ∨
            list_messages (Except.ok items) cid = Except.ok out ∨
            list_videos (Except.ok items) tag = Except.ok out) :
    out.all idShaped = true := by
  have base : ∀ sub : List Doc, (∀ d ∈ sub, d ∈ items) →
      (sub.map shapeDoc).all idShaped = true :=
    fun sub h => all_idShaped_of_sub items sub hitems h
  rcases hout with h | h | h | h
  · simp only [list_users] at h
    injection h with h
    subst h
    exact base items (fun d hd => hd)
  · simp only [list_channels] at h
    injection h with h
    subst h
    exact base items (fun d hd => hd)
  · simp only [list_messages, get_documents] at h
    injection h with h
    subst h
    exact base _ (fun d hd =>
      List.mem_of_mem_filter (List.mem_of_mem_take hd))
  · simp only [list_videos, get_documents] at h
    injection h with h
    subst h
    exact base _ (fun d hd =>
      List.mem_of_mem_filter (List.mem_of_mem_take hd))

/-- Witness for C1 at a concrete one-document store listed through
`GET /api/users`. -/
theorem C1_witness :
    ([[("_id", Value.str "abc"), ("username", Value.str "neo")]] : List Doc).all
      hasFreshOid = true ∧
    (([[("_id", Value.str "abc"), ("username", Value.str "neo")]] : List Doc).map
      shapeDoc).all idShaped = true :=
  ⟨by decide,
   C1_list_output_id_shaping
     [[("_id", Value.str "abc"), ("username", Value.str "neo")]] none none
     ([[("_id", Value.str "abc"), ("username", Value.str "neo")]].map shapeDoc)
     (by decide) (Or.inl rfl)⟩

/-- C3 counterexample: the claim says a store error is surfaced with a
diagnostic truncated to a bounded prefix and the full internal detail is
never leaked.  On the code, `create_user` and `list_videos` put the full
`str(e)` into the 500 detail: at the concrete 80-character error below
the surfaced detail is the entire internal message (longer than the
50-character cut the code applies only in `/test`), so the claim as
stated is false. -/
theorem C3_counterexample :
    create_user (Except.error longErrMsg) = Except.error (500, longErrMsg) ∧
    list_videos (Except.error longErrMsg) none = Except.error (500, longErrMsg) ∧
    50 < longErrMsg.length :=
  ⟨rfl, rfl, by decide⟩

/-- C3 amended: every store error raised during a create or list
operation is surfaced as a 500 whose detail is the full `str(e)` of the
internal error, untruncated; the only truncation to a 50-character
prefix in `main.py` is in the `/test` diagnostic endpoint. -/
theorem C3_amended_full_detail (e : String) (tag : Option String) :
    create_user (Except.error e) = Except.error (500, e) ∧
    list_videos (Except.error e) tag = Except.error (500, e) ∧
    test_database_error_detail e = "❌ Error: " ++ e.take 50 :=
  ⟨rfl, rfl, rfl⟩

/-- C2: whenever the trimmed, lowercased message contains a keyword of
set A (`video`, `clip`, `reel`), the chatbot answers with the
caption-offer template parameterized by the user — regardless of any
set-B keyword also present, because set A is tested first. -/
theorem C2_setA_before_setB (user message : String)
    (hA : keywordsA.any (fun k => pyIn k (pyLower (pyStrip message))) = true) :
    chatbot user message = Except.ok (videoReply user) := by
  by_cases ht : pyStrip message = ""
  · rw [ht] at hA
    exact absurd hA (by decide)
  · unfold chatbot replyText
    rw [if_neg ht, if_pos hA]

/-- Witness for C2 at `reply("Lee", "  video chat please  ")`: the
message also contains the set-B keyword `chat`, yet the set-A template
(containing `Lee`) is returned. -/
theorem C2_witness :
    keywordsB.any (fun k => pyIn k (pyLower (pyStrip "  video chat please  "))) = true ∧
    pyIn "Lee" (videoReply "Lee") = true ∧
    chatbot "Lee" "  video chat please  " = Except.ok (videoReply "Lee") :=
  ⟨by decide, by decide,
   C2_setA_before_setB "Lee" "  video chat please  " (by decide)⟩

/-- C4: a message that is empty after trimming is rejected by
`POST /api/bot` with a 400 `Empty message` error, and no reply is ever
produced for it. -/
theorem C4_empty_after_trim_rejected (user message : String)
    (h : pyStrip message = "") :
    chatbot user message = Except.error (400, "Empty message") ∧
    ∀ r : String, chatbot user message ≠ Except.ok r := by
  have h1 : chatbot user message = Except.error (400, "Empty message") := by
    unfold chatbot
    rw [if_pos h]
  refine ⟨h1, fun r hr => ?_⟩
  rw [h1] at hr
  exact Except.noConfusion hr

/-- Witness for C4 at the all-whitespace message `"  "`. -/
theorem C4_witness :
    pyStrip "  " = "" ∧
    chatbot "Ana" "  " = Except.error (400, "Empty message") :=
  ⟨by decide, (C4_empty_after_trim_rejected "Ana" "  " (by decide)).1⟩

/-- C7: when the trimmed message is non-empty and matches no keyword of
set A and none of set B, the chatbot returns the generic template that
echoes the trimmed message verbatim and is parameterized by the user. -/
theorem C7_generic_echo (user message : String)
    (hne : pyStrip message ≠ "")
    (hA : keywordsA.any (fun k => pyIn k (pyLower (pyStrip message))) = false)
    (hB : keywordsB.any (fun k => pyIn k (pyLower (pyStrip message))) = false) :
    chatbot user message = Except.ok (genericReply user (pyStrip message)) := by
  unfold chatbot replyText
  rw [if_neg hne, hA, hB]
  simp

/-- Witness for C7 at `reply("Sam", "What's up")`: the echo template
contains the trimmed text `What's up` and `Sam`. -/
theorem C7_witness :
    pyIn "What\x27s up" (genericReply "Sam" (pyStrip "What\x27s up")) = true ∧
    pyIn "Sam" (genericReply "Sam" (pyStrip "What\x27s up")) = true ∧
    chatbot "Sam" "What\x27s up" =
      Except.ok (genericReply "Sam" (pyStrip "What\x27s up")) :=
  ⟨by decide, by decide,
   C7_generic_echo "Sam" "What\x27s up" (by decide) (by decide) (by decide)⟩

/-- C5: listing messages with a non-empty `channel_id` returns only
documents whose `channel_id` equals that value; omitting the parameter
returns the stored documents (shaped) up to 100; the limit 100 applies
in both cases. -/
theorem C5_channel_filter_and_limit (docs : List Doc) (c : String)
    (hc : c ≠ "") :
    (resultDocs (list_messages (Except.ok docs) (some c))).all
      (fun d => decide (dget d "channel_id" = some (Value.str c))) = true ∧
    (resultDocs (list_messages (Except.ok docs) (some c))).length ≤ 100 ∧
    list_messages (Except.ok docs) none =
      Except.ok ((docs.take 100).map shapeDoc) ∧
    (resultDocs (list_messages (Except.ok docs) none)).length ≤ 100 := by
  have hunfold : list_messages (Except.ok docs) (some c) =
      Except.ok (((docs.filter
        (matchesFilter (FilterSpec.fieldEq "channel_id" c))).take 100).map
          shapeDoc) := by
    simp only [list_messages, get_documents]
    rw [if_neg hc]
  have he : matchesFilter FilterSpec.empty = fun _ => true :=
    funext (fun d => rfl)
  have hnone : list_messages (Except.ok docs) none =
      Except.ok ((docs.take 100).map shapeDoc) := by
    simp only [list_messages, get_documents]
    rw [he, List.filter_true]
  refine ⟨?_, ?_, hnone, ?_⟩
  · rw [hunfold]
    simp only [resultDocs]
    rw [List.all_eq_true]
    intro x hx
    rw [List.mem_map] at hx
    obtain ⟨d, hd, rfl⟩ := hx
    have hp : matchesFilter (FilterSpec.fieldEq "channel_id" c) d = true :=
      List.of_mem_filter (List.mem_of_mem_take hd)
    have hd' : dget d "channel_id" = some (Value.str c) := by
      simp only [matchesFilter] at hp
      cases hv : dget d "channel_id" with
      | none => rw [hv] at hp; simp at hp
      | some v =>
        rw [hv] at hp
        cases v with
        | str s => rw [of_decide_eq_true hp]
        | int n => simp at hp
        | bool b => simp at hp
        | strList l => simp at hp
    rw [dget_shapeDoc_ne d _ (by decide) (by decide), hd']
    simp
  · rw [hunfold]
    simp only [resultDocs]
    rw [List.length_map, List.length_take]
    exact min_le_left _ _
  · rw [hnone]
    simp only [resultDocs]
    rw [List.length_map, List.length_take]
    exact min_le_left _ _

/-- Witness for C5 at a concrete two-channel store filtered by `c1`. -/
theorem C5_witness :
    (resultDocs (list_messages (Except.ok
        [[("_id", Value.str "m1"), ("channel_id", Value.str "c1"),
          ("content", Value.str "hello")],
         [("_id", Value.str "m2"), ("channel_id", Value.str "c2"),
          ("content", Value.str "yo")]]) (some "c1"))).all
      (fun d => decide (dget d "channel_id" = some (Value.str "c1"))) = true ∧
    (resultDocs (list_messages (Except.ok
        [[("_id", Value.str "m1"), ("channel_id", Value.str "c1"),
          ("content", Value.str "hello")],
         [("_id", Value.str "m2"), ("channel_id", Value.str "c2"),
          ("content", Value.str "yo")]]) (some "c1"))).length ≤ 100 ∧
    list_messages (Except.ok
        [[("_id", Value.str "m1"), ("channel_id", Value.str "c1"),
          ("content", Value.str "hello")],
         [("_id", Value.str "m2"), ("channel_id", Value.str "c2"),
          ("content", Value.str "yo")]]) none =
      Except.ok (([[("_id", Value.str "m1"), ("channel_id", Value.str "c1"),
          ("content", Value.str "hello")],
         [("_id", Value.str "m2"), ("channel_id", Value.str "c2"),
          ("content", Value.str "yo")]].take 100).map shapeDoc) ∧
    (resultDocs (list_messages (Except.ok
        [[("_id", Value.str "m1"), ("channel_id", Value.str "c1"),
          ("content", Value.str "hello")],
         [("_id", Value.str "m2"), ("channel_id", Value.str "c2"),
          ("content", Value.str "yo")]]) none)).length ≤ 100 :=
  C5_channel_filter_and_limit
    [[("_id", Value.str "m1"), ("channel_id", Value.str "c1"),
      ("content", Value.str "hello")],
     [("_id", Value.str "m2"), ("channel_id", Value.str "c2"),
      ("content", Value.str "yo")]] "c1" (by decide)

/-- C9: an empty-string query parameter is treated as absent when the
read filter is built (`if channel_id` / `if tag` are false for the empty
string), so `channel_id=""` lists up to 100 messages across all channels
and `tag=""` lists up to 50 videos, exactly as when the parameter is
omitted. -/
theorem C9_empty_param_means_no_filter (st : Except String (List Doc))
    (docs : List Doc) :
    list_messages st (some "") = list_messages st none ∧
    list_videos st (some "") = list_videos st none ∧
    list_messages (Except.ok docs) (some "") =
      Except.ok ((docs.take 100).map shapeDoc) ∧
    list_videos (Except.ok docs) (some "") =
      Except.ok ((docs.take 50).map shapeDoc) := by
  have he : matchesFilter FilterSpec.empty = fun _ => true :=
    funext (fun d => rfl)
  refine ⟨rfl, rfl, ?_, ?_⟩
  · simp [list_messages, get_documents, he, List.filter_true]
  · simp [list_videos, get_documents, he, List.filter_true]

/-- C6: the length bounds on `User.username` (3-32), message/video
`author` (3-32) and `Channel.name` (2-64) are inclusive at both ends:
exactly-minimum and exactly-maximum lengths validate, one character
under or over is rejected. -/
theorem C6_length_bounds_both_edges (s : String) :
    ((s.length = 3 → User.usernameValid s = true) ∧
     (s.length = 32 → User.usernameValid s = true) ∧
     (s.length = 2 → User.usernameValid s = false) ∧
     (s.length = 33 → User.usernameValid s = false)) ∧
    ((s.length = 3 → authorValid s = true) ∧
     (s.length = 32 → authorValid s = true) ∧
     (s.length = 2 → authorValid s = false) ∧
     (s.length = 33 → authorValid s = false)) ∧
    ((s.length = 2 → Channel.nameValid s = true) ∧
     (s.length = 64 → Channel.nameValid s = true) ∧
     (s.length = 1 → Channel.nameValid s = false) ∧
     (s.length = 65 → Channel.nameValid s = false)) := by
  refine ⟨⟨?_, ?_, ?_, ?_⟩, ⟨?_, ?_, ?_, ?_⟩, ⟨?_, ?_, ?_, ?_⟩⟩ <;>
    intro h <;>
    simp [User.usernameValid, authorValid, Channel.nameValid, lenBetween, h]

/-- Witness for C6 at concrete strings of lengths 1, 2, 3, 32, 33, 64
and 65. -/
theorem C6_witness :
    User.usernameValid "abc" = true ∧
    User.usernameValid "abcdefghijklmnopqrstuvwxyzabcdef" = true ∧
    User.usernameValid "ab" = false ∧
    User.usernameValid "abcdefghijklmnopqrstuvwxyzabcdefg" = false ∧
    authorValid "abc" = true ∧
    authorValid "ab" = false ∧
    Channel.nameValid "ab" = true ∧
    Channel.nameValid
      "abcdefghijklmnopqrstuvwxyzabcdefghijklmnopqrstuvwxyzabcdefghijkl" = true ∧
    Channel.nameValid "a" = false ∧
    Channel.nameValid
      "abcdefghijklmnopqrstuvwxyzabcdefghijklmnopqrstuvwxyzabcdefghijklm" = false := by
  refine ⟨?_, ?_, ?_, ?_, ?_, ?_, ?_, ?_, ?_, ?_⟩
  · exact (C6_length_bounds_both_edges "abc").1.1 (by decide)
  · exact (C6_length_bounds_both_edges
      "abcdefghijklmnopqrstuvwxyzabcdef").1.2.1 (by decide)
  · exact (C6_length_bounds_both_edges "ab").1.2.2.1 (by decide)
  · exact (C6_length_bounds_both_edges
      "abcdefghijklmnopqrstuvwxyzabcdefg").1.2.2.2 (by decide)
  · exact (C6_length_bounds_both_edges "abc").2.1.1 (by decide)
  · exact (C6_length_bounds_both_edges "ab").2.1.2.2.1 (by decide)
  · exact (C6_length_bounds_both_edges "ab").2.2.1 (by decide)
  · exact (C6_length_bounds_both_edges
      "abcdefghijklmnopqrstuvwxyzabcdefghijklmnopqrstuvwxyzabcdefghijkl").2.2.2.1
      (by decide)
  · exact (C6_length_bounds_both_edges "a").2.2.2.2.1 (by decide)
  · exact (C6_length_bounds_both_edges
      "abcdefghijklmnopqrstuvwxyzabcdefghijklmnopqrstuvwxyzabcdefghijklm").2.2.2.2.2
      (by decide)

/-- C8: video validation rejects `likes = -1` and accepts `likes = 0`,
explicitly and by default application when the field is absent; every
value satisfying the lower bound `0 ≤ likes` is accepted (it is the only
numeric constraint declared on `Video`). -/
theorem C8_likes_lower_bound (n : Int) (hn : 0 ≤ n) :
    Video.likesOk (-1) = false ∧
    Video.likesOk 0 = true ∧
    Video.likesField (some 0) = 0 ∧
    Video.likesField none = 0 ∧
    Video.likesOk (Video.likesField none) = true ∧
    Video.likesOk n = true :=
  ⟨by decide, by decide, rfl, rfl, by decide, decide_eq_true hn⟩

/-- Witness for C8 at `likes = 7`. -/
theorem C8_witness :
    (0 : Int) ≤ 7 ∧
    Video.likesOk 7 = true ∧
    Video.likesOk (-1) = false ∧
    Video.likesField none = 0 :=
  ⟨by decide, (C8_likes_lower_bound 7 (by decide)).2.2.2.2.2,
   (C8_likes_lower_bound 7 (by decide)).1,
   (C8_likes_lower_bound 7 (by decide)).2.2.2.1⟩

/-- C10: a literally empty message never reaches the handler's
emptiness check — the `BotMessage` schema (min_length 1) already rejects
it — and for schema-valid messages the handler's 400 `Empty message`
rejection fires exactly when the message is non-empty but trims to the
empty string. -/
theorem C10_empty_check_split (user message : String)
    (hv : BotMessage.valid user message = true) :
    BotMessage.valid user "" = false ∧
    (chatbot user message = Except.error (400, "Empty message") ↔
      (message ≠ "" ∧ pyStrip message = "")) := by
  unfold BotMessage.valid at hv
  rw [Bool.and_eq_true] at hv
  have h2 := hv.2
  unfold lenBetween at h2
  rw [Bool.and_eq_true] at h2
  have hlen : 1 ≤ message.length := of_decide_eq_true h2.1
  have hmne : message ≠ "" := by
    intro hm
    subst hm
    exact absurd hlen (by decide)
  constructor
  · have hf : lenBetween 1 4000 "" = false := by decide
    unfold BotMessage.valid
    rw [hf, Bool.and_false]
  · constructor
    · intro heq
      by_cases hs : pyStrip message = ""
      · exact ⟨hmne, hs⟩
      · unfold chatbot at heq
        rw [if_neg hs] at heq
        exact Except.noConfusion heq
    · rintro ⟨-, hs⟩
      unfold chatbot
      rw [if_pos hs]

/-- Witness for C10: `""` fails schema validation, while the
schema-valid all-whitespace message `"  "` triggers the handler's 400. -/
theorem C10_witness :
    BotMessage.valid "Ana" "  " = true ∧
    BotMessage.valid "Ana" "" = false ∧
    chatbot "Ana" "  " = Except.error (400, "Empty message") := by
  have h := C10_empty_check_split "Ana" "  " (by decide)
  exact ⟨by decide, h.1, h.2.mpr (by decide)⟩
